import Mathlib

/-!
Verification of the budget/forecast variance and distribution engine of the
stmrolling sales-planning backend.

The Python source is shallowly embedded: Django `Decimal` values become `ℚ`
(the source performs exact decimal arithmetic on these code paths), model rows
become structures, the database becomes an explicit `List` of rows, and each
persistence operation becomes a pure function from the old state to the new
state.  Fallible endpoints return `Except`.

Sources embedded here:
  - backend/apps/sales_budget/models.py      (SalesBudget.save,
      SalesBudget.apply_seasonal_distribution, model constraints)
  - backend/apps/sales_budget/views.py       (bulk_create_budget_view,
      approve_budget_entries_view, SalesBudgetDetailView.perform_update /
      perform_destroy)
  - backend/apps/rolling_forecast/models.py  (RollingForecast.save,
      RollingForecast.update_from_budget)
  - backend/apps/rolling_forecast/views.py   (variance_analysis_view accuracy
      score, RollingForecastDetailView.perform_update / perform_destroy)
  - backend/apps/users/models.py             (User.is_admin,
      User.can_manage_users)
-/

/-- Workflow status shared by `SalesBudget` and `RollingForecast`
(`Status.TextChoices` in both models.py files). -/
inductive Status where
  | draft
  | submitted
  | approved
  | rejected
deriving DecidableEq, Repr

/-- `SalesBudget.DistributionType` from sales_budget/models.py. -/
inductive DistributionType where
  | equal
  | percentage
  | seasonal
  | manual
deriving DecidableEq, Repr

/-- `User.Role` from users/models.py. -/
inductive Role where
  | admin
  | manager
  | salesperson
  | viewer
deriving DecidableEq, Repr

/-- The fields of the custom `User` model that the embedded code paths read. -/
structure User where
  id : Nat
  role : Role
  is_superuser : Bool
deriving DecidableEq, Repr

/-- `User.is_admin` from users/models.py:
`self.role == self.Role.ADMIN or self.is_superuser`. -/
def User.is_admin (u : User) : Prop :=
  u.role = Role.admin ∨ u.is_superuser = true

instance (u : User) : Decidable u.is_admin := by
  unfold User.is_admin; infer_instance

/-- `User.can_manage_users` from users/models.py:
`self.role in [self.Role.ADMIN, self.Role.MANAGER]`. -/
def User.can_manage_users (u : User) : Prop :=
  u.role = Role.admin ∨ u.role = Role.manager

instance (u : User) : Decidable u.can_manage_users := by
  unfold User.can_manage_users; infer_instance

/-- The fields of `Item` (items/models.py) read by the bulk-create views. -/
structure Item where
  id : Nat
  unit_price : ℚ
deriving DecidableEq, Repr

/-- The fields of `Customer` (customers/models.py) read by the bulk-create
views.  `salesperson` is the id of the assigned salesperson, if any. -/
structure Customer where
  id : Nat
  salesperson : Option Nat
deriving DecidableEq, Repr

/-- A `SalesBudget` row (sales_budget/models.py).  Foreign keys are embedded
as ids, `DecimalField`s as `ℚ`, and `approved_at` as an abstract tick. -/
structure SalesBudget where
  id : Nat
  customer : Nat
  item : Nat
  year : Nat
  month : Nat
  quantity : ℚ
  unit_price : ℚ
  discount_percentage : ℚ
  total_amount : ℚ
  distribution_type : DistributionType
  seasonal_multiplier : ℚ
  is_manual_entry : Bool
  status : Status
  salesperson : Option Nat
  created_by : Option Nat
  approved_by : Option Nat
  approved_at : Option Nat
deriving DecidableEq, Repr

/-- `SalesBudget.save` from sales_budget/models.py lines 245-255: recompute
`total_amount` from quantity, unit price and discount before persisting.

```python
gross_amount = self.quantity * self.unit_price
if self.discount_percentage > 0:
    discount_amount = (gross_amount * self.discount_percentage) / 100
    self.total_amount = gross_amount - discount_amount
else:
    self.total_amount = gross_amount
``` -/
def SalesBudget.save (e : SalesBudget) : SalesBudget :=
  let gross_amount := e.quantity * e.unit_price
  if e.discount_percentage > 0 then
    { e with total_amount := gross_amount - gross_amount * e.discount_percentage / 100 }
  else
    { e with total_amount := gross_amount }

/-- `SalesBudget.apply_seasonal_distribution` from sales_budget/models.py
lines 274-280:

```python
if self.distribution_type == self.DistributionType.SEASONAL:
    base_quantity = self.quantity / self.seasonal_multiplier \
        if self.seasonal_multiplier > 0 else self.quantity
    self.quantity = base_quantity * self.seasonal_multiplier
    self.save()
``` -/
def SalesBudget.apply_seasonal_distribution (e : SalesBudget) : SalesBudget :=
  if e.distribution_type = DistributionType.seasonal then
    let base_quantity :=
      if e.seasonal_multiplier > 0 then e.quantity / e.seasonal_multiplier else e.quantity
    SalesBudget.save { e with quantity := base_quantity * e.seasonal_multiplier }
  else e

/-- Errors surfaced by the embedded endpoints: `badRequest` is an HTTP 400
response, `forbidden` an HTTP 403, `permissionDenied` a DRF
`PermissionDenied`, and the two `Violation` constructors are database
`IntegrityError`s raised by the model constraints. -/
inductive ApiError where
  | badRequest
  | forbidden
  | permissionDenied
  | uniqueViolation
  | checkViolation
deriving DecidableEq, Repr

/-- The seasonal multiplier table from bulk_create_budget_view
(sales_budget/views.py lines 166-171), as a total function; `.get(month, 1.0)`
is the `_ => 1` fallback. -/
def seasonal_multipliers (month : Nat) : ℚ :=
  match month with
  | 1 => 16/10 | 2 => 15/10 | 3 => 14/10 | 4 => 13/10
  | 5 => 12/10 | 6 => 11/10 | 7 => 1     | 8 => 9/10
  | 9 => 8/10  | 10 => 75/100 | 11 => 7/10 | 12 => 6/10
  | _ => 1

/-- `range(1, 13)`: the months iterated by the bulk-create loop. -/
def monthsList : List Nat := (List.range 12).map (· + 1)

/-- One budget entry generated by the bulk-create loop body
(sales_budget/views.py lines 176-200), including the `SalesBudget.save` run
by `objects.create`.  Fields not passed to `create` take the model defaults. -/
def mkBulkEntry (c : Customer) (it : Item) (year month : Nat) (amount_per_item : ℚ)
    (dt : DistributionType) (uid : Nat) : SalesBudget :=
  let base_quantity := if it.unit_price > 0 then amount_per_item / it.unit_price else 0
  let multiplier := if dt = DistributionType.seasonal then seasonal_multipliers month else 1
  let quantity := if dt = DistributionType.seasonal
    then base_quantity * seasonal_multipliers month else base_quantity
  SalesBudget.save
    { id := 0
      customer := c.id
      item := it.id
      year := year
      month := month
      quantity := quantity
      unit_price := it.unit_price
      discount_percentage := 0
      total_amount := 0
      distribution_type := dt
      seasonal_multiplier := multiplier
      is_manual_entry := false
      status := Status.draft
      salesperson := some (c.salesperson.getD uid)
      created_by := some uid
      approved_by := none
      approved_at := none }

/-- All entries generated by the bulk-create double loop (month outer, item
inner), in creation order. -/
def generatedEntries (c : Customer) (items : List Item) (year : Nat) (total_amount : ℚ)
    (dt : DistributionType) (uid : Nat) : List SalesBudget :=
  let amount_per_item := total_amount / (items.length : ℚ)
  monthsList.flatMap fun month => items.map fun it =>
    mkBulkEntry c it year month amount_per_item dt uid

/-- Insertion of one row into the `sales_budget` table, enforcing the
`unique_customer_item_period` constraint and the check constraints of
sales_budget/models.py lines 219-240. -/
def dbInsertBudget (db : List SalesBudget) (e : SalesBudget) :
    Except ApiError (List SalesBudget) :=
  if db.any fun x =>
      x.customer == e.customer && x.item == e.item && x.year == e.year && x.month == e.month then
    Except.error ApiError.uniqueViolation
  else if e.quantity < 0 ∨ e.unit_price < 0 ∨ e.total_amount < 0 ∨
      e.discount_percentage < 0 ∨ 100 < e.discount_percentage then
    Except.error ApiError.checkViolation
  else
    Except.ok (db ++ [e])

/-- The bulk-create persistence loop: each `objects.create` commits
individually (the view opens no transaction), and a raised `IntegrityError`
aborts the loop leaving the rows committed so far in place. -/
def insertEach (db : List SalesBudget) : List SalesBudget → List SalesBudget × Option ApiError
  | [] => (db, none)
  | e :: rest =>
    match dbInsertBudget db e with
    | Except.ok db2 => insertEach db2 rest
    | Except.error err => (db, some err)

/-- `bulk_create_budget_view` from sales_budget/views.py lines 143-208.
Serializer validation (`items` nonempty, `year` in 2020-2030,
`total_amount ≥ 0`) yields a 400 before anything is written; afterwards the
generated entries are persisted one by one and on success the view reports
`entries_created = len(created_entries)`. -/
def bulk_create_budget_view (c : Customer) (items : List Item) (year : Nat)
    (total_amount : ℚ) (dt : DistributionType) (uid : Nat) (db : List SalesBudget) :
    List SalesBudget × Except ApiError Nat :=
  if items = [] ∨ year < 2020 ∨ 2030 < year ∨ total_amount < 0 then
    (db, Except.error ApiError.badRequest)
  else
    match insertEach db (generatedEntries c items year total_amount dt uid) with
    | (db2, none) => (db2, Except.ok (generatedEntries c items year total_amount dt uid).length)
    | (db2, some err) => (db2, Except.error err)

/-- `approve_budget_entries_view` from sales_budget/views.py lines 346-383:
after the empty-list and permission guards, a single queryset
`filter(id__in=entry_ids, status=SUBMITTED).update(status=APPROVED,
approved_by=user, approved_at=now)` stamps all three fields at once and
returns the number of rows matched. -/
def approve_budget_entries_view (entry_ids : List Nat) (u : User) (now : Nat)
    (db : List SalesBudget) : Except ApiError (List SalesBudget × Nat) :=
  if entry_ids = [] then Except.error ApiError.badRequest
  else if ¬ u.can_manage_users then Except.error ApiError.forbidden
  else
    Except.ok
      (db.map fun x =>
        if x.id ∈ entry_ids ∧ x.status = Status.submitted then
          { x with status := Status.approved, approved_by := some u.id, approved_at := some now }
        else x,
       (db.filter fun x => decide (x.id ∈ entry_ids ∧ x.status = Status.submitted)).length)

/-- The writable fields of `SalesBudgetSerializer` an update request may
carry; `none` leaves the stored value in place. -/
structure BudgetUpdate where
  quantity : Option ℚ
  unit_price : Option ℚ
  discount_percentage : Option ℚ
  distribution_type : Option DistributionType
  seasonal_multiplier : Option ℚ
  status : Option Status
deriving DecidableEq, Repr

/-- Application of an update payload followed by the model `save` (what
`serializer.save()` does on an existing instance). -/
def applyBudgetUpdate (d : BudgetUpdate) (e : SalesBudget) : SalesBudget :=
  SalesBudget.save
    { e with
      quantity := d.quantity.getD e.quantity
      unit_price := d.unit_price.getD e.unit_price
      discount_percentage := d.discount_percentage.getD e.discount_percentage
      distribution_type := d.distribution_type.getD e.distribution_type
      seasonal_multiplier := d.seasonal_multiplier.getD e.seasonal_multiplier
      status := d.status.getD e.status }

/-- `SalesBudgetDetailView.perform_update` from sales_budget/views.py lines
122-131: an approved entry may only be modified by an admin. -/
def perform_update_budget (u : User) (e : SalesBudget) (d : BudgetUpdate) :
    Except ApiError SalesBudget :=
  if e.status = Status.approved ∧ ¬ u.is_admin then
    Except.error ApiError.permissionDenied
  else
    Except.ok (applyBudgetUpdate d e)

/-- `SalesBudgetDetailView.perform_destroy` from sales_budget/views.py lines
133-140. -/
def perform_destroy_budget (u : User) (e : SalesBudget) (db : List SalesBudget) :
    Except ApiError (List SalesBudget) :=
  if e.status = Status.approved ∧ ¬ u.is_admin then
    Except.error ApiError.permissionDenied
  else
    Except.ok (db.filter fun x => x.id != e.id)

/-- A `RollingForecast` row (rolling_forecast/models.py).  `pk` is `none`
for an in-memory instance not yet inserted (`self.pk is None`). -/
structure RollingForecast where
  pk : Option Nat
  customer : Nat
  item : Nat
  year : Nat
  month : Nat
  forecasted_quantity : ℚ
  forecasted_amount : ℚ
  budget_quantity : ℚ
  budget_amount : ℚ
  quantity_variance : ℚ
  amount_variance : ℚ
  quantity_variance_percentage : ℚ
  amount_variance_percentage : ℚ
  confidence_level : Nat
  is_latest : Bool
  version : Nat
  status : Status
  salesperson : Option Nat
  created_by : Option Nat
  approved_by : Option Nat
  approved_at : Option Nat
deriving DecidableEq, Repr

/-- The variance block of `RollingForecast.save`
(rolling_forecast/models.py lines 281-294):

```python
self.quantity_variance = self.forecasted_quantity - self.budget_quantity
self.amount_variance = self.forecasted_amount - self.budget_amount
if self.budget_quantity > 0:
    self.quantity_variance_percentage = (self.quantity_variance / self.budget_quantity) * 100
else:
    self.quantity_variance_percentage = 0
if self.budget_amount > 0:
    self.amount_variance_percentage = (self.amount_variance / self.budget_amount) * 100
else:
    self.amount_variance_percentage = 0
``` -/
def computeVariances (e : RollingForecast) : RollingForecast :=
  let qv := e.forecasted_quantity - e.budget_quantity
  let av := e.forecasted_amount - e.budget_amount
  { e with
    quantity_variance := qv
    amount_variance := av
    quantity_variance_percentage :=
      if e.budget_quantity > 0 then qv / e.budget_quantity * 100 else 0
    amount_variance_percentage :=
      if e.budget_amount > 0 then av / e.budget_amount * 100 else 0 }

/-- `x` belongs to the (customer, item, year, month) cell `(c, i, y, m)` —
the filter used twice inside `RollingForecast.save`. -/
def inCell (c i y m : Nat) (x : RollingForecast) : Bool :=
  x.customer == c && x.item == i && x.year == y && x.month == m

/-- The rows of `db` in cell `(c, i, y, m)`, in insertion order. -/
def cellList (db : List RollingForecast) (c i y m : Nat) : List RollingForecast :=
  db.filter (inCell c i y m)

/-- `RollingForecast.save` from rolling_forecast/models.py lines 279-316,
acting on the whole table `db`.  Variances are recomputed first; then, only
when the instance has no primary key (a new row), the version bookkeeping
runs: `existing_count` rows already in the cell means the new row gets
`version = existing_count + 1` and every existing row of the cell is flipped
to `is_latest=False`.  Finally `super().save()` inserts the new row (with
fresh key `newPk`) or rewrites the row with the instance's key.  Returns the
new table and the saved instance. -/
def RollingForecast.save (e : RollingForecast) (newPk : Nat) (db : List RollingForecast) :
    List RollingForecast × RollingForecast :=
  let e1 := computeVariances e
  match e1.pk with
  | some k =>
    (db.map fun x => if x.pk = some k then e1 else x, e1)
  | none =>
    let existing_count := (cellList db e1.customer e1.item e1.year e1.month).length
    let e2 := if existing_count > 0 then { e1 with version := existing_count + 1 } else e1
    let db2 :=
      if existing_count > 0 then
        db.map fun x =>
          if inCell e1.customer e1.item e1.year e1.month x then { x with is_latest := false }
          else x
      else db
    let e3 := { e2 with pk := some newPk }
    (db2 ++ [e3], e3)

/-- A fresh in-memory `RollingForecast` as built by the create paths
(`RollingForecastCreateSerializer` / `objects.create`): no primary key yet,
and the model defaults `version=1`, `is_latest=True` (neither field is
writable on creation). -/
def RollingForecast.fresh (e : RollingForecast) : Prop :=
  e.pk = none ∧ e.version = 1 ∧ e.is_latest = true

instance (e : RollingForecast) : Decidable e.fresh := by
  unfold RollingForecast.fresh; infer_instance

/-- `RollingForecast.update_from_budget` from rolling_forecast/models.py
lines 341-345: copy the budget snapshot fields and save. -/
def RollingForecast.update_from_budget (e : RollingForecast) (sb : SalesBudget)
    (newPk : Nat) (db : List RollingForecast) : List RollingForecast × RollingForecast :=
  RollingForecast.save
    { e with budget_quantity := sb.quantity, budget_amount := sb.total_amount } newPk db

/-- The writable fields of `RollingForecastSerializer` an update request may
carry (the derived variance fields are read-only). -/
structure ForecastUpdate where
  forecasted_quantity : Option ℚ
  forecasted_amount : Option ℚ
  budget_quantity : Option ℚ
  budget_amount : Option ℚ
  confidence_level : Option Nat
  status : Option Status
deriving DecidableEq, Repr

/-- Application of an update payload to an existing row followed by the
model `save` (which, for a row with a primary key, only recomputes the
variance fields and rewrites the row in place). -/
def applyForecastUpdate (d : ForecastUpdate) (e : RollingForecast) : RollingForecast :=
  computeVariances
    { e with
      forecasted_quantity := d.forecasted_quantity.getD e.forecasted_quantity
      forecasted_amount := d.forecasted_amount.getD e.forecasted_amount
      budget_quantity := d.budget_quantity.getD e.budget_quantity
      budget_amount := d.budget_amount.getD e.budget_amount
      confidence_level := d.confidence_level.getD e.confidence_level
      status := d.status.getD e.status }

/-- `RollingForecastDetailView.perform_update` from rolling_forecast/views.py
lines 122-131: an approved entry may only be modified by an admin. -/
def perform_update_forecast (u : User) (e : RollingForecast) (d : ForecastUpdate) :
    Except ApiError RollingForecast :=
  if e.status = Status.approved ∧ ¬ u.is_admin then
    Except.error ApiError.permissionDenied
  else
    Except.ok (applyForecastUpdate d e)

/-- `RollingForecastDetailView.perform_destroy` from
rolling_forecast/views.py lines 133-140. -/
def perform_destroy_forecast (u : User) (e : RollingForecast) (db : List RollingForecast) :
    Except ApiError (List RollingForecast) :=
  if e.status = Status.approved ∧ ¬ u.is_admin then
    Except.error ApiError.permissionDenied
  else
    Except.ok (db.filter fun x => x.pk != e.pk)

/-- The accuracy-score computation of `variance_analysis_view`
(rolling_forecast/views.py lines 227-234):

```python
if total_budget > 0:
    accuracy_score = max(0, 100 - abs((total_forecast - total_budget) / total_budget * 100))
else:
    accuracy_score = 0
``` -/
def accuracy_score (total_forecast total_budget : ℚ) : ℚ :=
  if total_budget > 0 then
    max 0 (100 - |(total_forecast - total_budget) / total_budget * 100|)
  else 0

/-- `id__in=entry_ids` for a forecast row: its primary key is among the
requested ids. -/
def pkInList (entry_ids : List Nat) (x : RollingForecast) : Bool :=
  match x.pk with
  | some k => entry_ids.contains k
  | none => false

/-- `approve_forecast_entries_view` from rolling_forecast/views.py lines
372-409, identical in shape to the budget variant. -/
def approve_forecast_entries_view (entry_ids : List Nat) (u : User) (now : Nat)
    (db : List RollingForecast) : Except ApiError (List RollingForecast × Nat) :=
  if entry_ids = [] then Except.error ApiError.badRequest
  else if ¬ u.can_manage_users then Except.error ApiError.forbidden
  else
    Except.ok
      (db.map fun x =>
        if pkInList entry_ids x ∧ x.status = Status.submitted then
          { x with status := Status.approved, approved_by := some u.id, approved_at := some now }
        else x,
       (db.filter fun x =>
         pkInList entry_ids x && decide (x.status = Status.submitted)).length)

/-! ## Concrete fixtures used by witnesses and counterexamples -/

/-- A submitted budget row whose stored `total_amount` (999) is stale with
respect to its own quantity/price/discount (1 × 1, no discount). -/
def exStale : SalesBudget :=
  { id := 1, customer := 1, item := 1, year := 2025, month := 3,
    quantity := 1, unit_price := 1, discount_percentage := 0, total_amount := 999,
    distribution_type := DistributionType.equal, seasonal_multiplier := 1,
    is_manual_entry := false, status := Status.submitted,
    salesperson := none, created_by := none, approved_by := none, approved_at := none }

/-- A manager (may approve entries, is not an admin). -/
def exManager : User := { id := 9, role := Role.manager, is_superuser := false }

/-- `exStale` after the bulk-approve queryset update stamped it. -/
def exStaleApproved : SalesBudget :=
  { exStale with status := Status.approved, approved_by := some 9, approved_at := some 0 }

/-! ## C6 — accuracy score -/

/-- C6: for every aggregate `total_forecast` tf and `total_budget` tb, the
accuracy score is `max(0, 100 − |tf − tb| / tb × 100)` when `tb > 0` and `0`
otherwise; it is never negative, penalizes over- and under-forecasting
equally, and on the spec's examples gives 95, 50 and 0. -/
theorem accuracy_score_spec (tf tb d : ℚ) :
    (0 < tb → accuracy_score tf tb = max 0 (100 - |tf - tb| / tb * 100)) ∧
    (tb ≤ 0 → accuracy_score tf tb = 0) ∧
    0 ≤ accuracy_score tf tb ∧
    accuracy_score (tb + d) tb = accuracy_score (tb - d) tb ∧
    accuracy_score 95 100 = 95 ∧
    accuracy_score 150 100 = 50 ∧
    accuracy_score tf 0 = 0 := by
  refine ⟨?_, ?_, ?_, ?_, ?_, ?_, ?_⟩
  · intro h
    rw [accuracy_score, if_pos h]
    have : |(tf - tb) / tb * 100| = |tf - tb| / tb * 100 := by
      rw [abs_mul, abs_div, abs_of_pos h]
      norm_num
    rw [this]
  · intro h
    rw [accuracy_score, if_neg (not_lt.mpr h)]
  · rw [accuracy_score]; split
    · exact le_max_left 0 _
    · exact le_refl 0
  · rw [accuracy_score, accuracy_score]
    split
    · have h1 : tb + d - tb = d := by ring
      have h2 : tb - d - tb = -d := by ring
      rw [h1, h2, neg_div, neg_mul, abs_neg]
    · rfl
  · norm_num [accuracy_score]
  · norm_num [accuracy_score]
  · norm_num [accuracy_score]

/-- Witness for C6 at tf = 95, tb = 100, d = 5. -/
theorem accuracy_score_spec_witness :
    (0 < (100 : ℚ) → accuracy_score 95 100 = max 0 (100 - |(95 : ℚ) - 100| / 100 * 100)) ∧
    ((100 : ℚ) ≤ 0 → accuracy_score 95 100 = 0) ∧
    0 ≤ accuracy_score 95 100 ∧
    accuracy_score (100 + 5) 100 = accuracy_score (100 - 5) 100 ∧
    accuracy_score 95 100 = 95 ∧
    accuracy_score 150 100 = 50 ∧
    accuracy_score 95 0 = 0 :=
  accuracy_score_spec 95 100 5

/-! ## C2 — total amount recomputation -/

/-- C2 (amended): every `SalesBudget.save` stores
`total_amount = q × p × (1 − d/100)` exactly; but the bulk-approve endpoint
persists its status change with a direct queryset update that bypasses
`save`, so approval does not recompute `total_amount` — it leaves every
stored `total_amount` exactly as it was. -/
theorem total_amount_on_save_and_approve (e : SalesBudget)
    (hd : 0 ≤ e.discount_percentage) (entry_ids : List Nat) (u : User) (now : Nat)
    (db : List SalesBudget) :
    (SalesBudget.save e).total_amount =
      e.quantity * e.unit_price * (1 - e.discount_percentage / 100) ∧
    ∀ r, approve_budget_entries_view entry_ids u now db = Except.ok r →
      r.1.map (fun x => x.total_amount) = db.map (fun x => x.total_amount) := by
  constructor
  · rw [SalesBudget.save]
    split
    · show e.quantity * e.unit_price - e.quantity * e.unit_price * e.discount_percentage / 100 = _
      ring
    · rename_i h
      have h0 : e.discount_percentage = 0 := le_antisymm (not_lt.mp h) hd
      show e.quantity * e.unit_price = _
      rw [h0]
      ring
  · intro r hr
    rw [approve_budget_entries_view] at hr
    split at hr
    · exact absurd hr (by simp)
    · split at hr
      · exact absurd hr (by simp)
      · rw [Except.ok.injEq] at hr
        subst hr
        rw [List.map_map]
        refine List.map_congr_left ?_
        intro x _
        simp only [Function.comp_apply]
        split <;> rfl

/-- Witness for C2's amended theorem at the concrete fixture. -/
theorem total_amount_on_save_and_approve_witness :
    (SalesBudget.save exStale).total_amount =
      exStale.quantity * exStale.unit_price * (1 - exStale.discount_percentage / 100) ∧
    ∀ r, approve_budget_entries_view [1] exManager 0 [exStale] = Except.ok r →
      r.1.map (fun x => x.total_amount) = [exStale].map (fun x => x.total_amount) :=
  total_amount_on_save_and_approve exStale (le_refl 0) [1] exManager 0 [exStale]

/-- Counterexample for C2 as stated: approving `exStale` (a persist
operation — a status-only update) succeeds and transitions the row, yet its
stored `total_amount` stays 999 ≠ 1 × 1 × (1 − 0/100): the approval path
performs no recomputation. -/
theorem total_amount_approve_counterexample :
    approve_budget_entries_view [1] exManager 0 [exStale] =
      Except.ok ([exStaleApproved], 1) ∧
    exStaleApproved.status = Status.approved ∧
    exStaleApproved.total_amount ≠
      exStaleApproved.quantity * exStaleApproved.unit_price *
        (1 - exStaleApproved.discount_percentage / 100) := by
  refine ⟨?_, rfl, ?_⟩
  · simp [approve_budget_entries_view, exManager, exStale, exStaleApproved,
      User.can_manage_users]
  · norm_num [exStaleApproved, exStale]

/-! ## C3 — variance computation on forecast save -/

/-- A persisted forecast row whose budget-quantity baseline is negative
(the model places no lower bound on the snapshot fields `budget_quantity` /
`budget_amount`, and the serializer only validates the forecasted fields). -/
def exNegBase : RollingForecast :=
  { pk := some 1, customer := 1, item := 1, year := 2025, month := 1,
    forecasted_quantity := 0, forecasted_amount := 0,
    budget_quantity := -1, budget_amount := 0,
    quantity_variance := 0, amount_variance := 0,
    quantity_variance_percentage := 0, amount_variance_percentage := 0,
    confidence_level := 80, is_latest := true, version := 1, status := Status.draft,
    salesperson := none, created_by := none, approved_by := none, approved_at := none }

/-- Counterexample for C3 as stated: at the nonzero baseline b = −1 with
actual a = 0, the claim's formula `(a − b)/b × 100` gives −100, but the save
path stores 0 — the code branches on `b > 0`, not on `b ≠ 0`. -/
theorem variance_percentage_counterexample :
    exNegBase.budget_quantity ≠ 0 ∧
    (RollingForecast.save exNegBase 1 []).2.quantity_variance_percentage = 0 ∧
    (exNegBase.forecasted_quantity - exNegBase.budget_quantity) /
        exNegBase.budget_quantity * 100 = -100 := by
  refine ⟨by norm_num [exNegBase], ?_, by norm_num [exNegBase]⟩
  · norm_num [RollingForecast.save, computeVariances, exNegBase]

/-- The instance returned by `RollingForecast.save` is `computeVariances e`
with (at most) the `pk` and `version` fields rewritten by the
version-control block — every other field is untouched. -/
theorem RollingForecast.save_snd_shape (e : RollingForecast) (newPk : Nat)
    (db : List RollingForecast) :
    ∃ p v, (RollingForecast.save e newPk db).2 =
      { computeVariances e with pk := p, version := v } := by
  unfold RollingForecast.save
  rcases hpk : (computeVariances e).pk with _ | k
  · simp only [hpk]
    split
    · exact ⟨some newPk, _, rfl⟩
    · exact ⟨some newPk, (computeVariances e).version, rfl⟩
  · simp only [hpk]
    exact ⟨(computeVariances e).pk, (computeVariances e).version, rfl⟩

/-- C3 (amended): every `RollingForecast.save` stores
`quantity_variance = fq − bq` and `amount_variance = fa − ba`, and each
percentage form equals `(actual − baseline)/baseline × 100` when the baseline
is strictly positive, and 0 otherwise (for zero *and* negative baselines —
the code short-circuits on `baseline > 0`, never dividing by zero). -/
theorem variance_fields_on_save (e : RollingForecast) (newPk : Nat)
    (db : List RollingForecast) :
    (RollingForecast.save e newPk db).2.quantity_variance =
      e.forecasted_quantity - e.budget_quantity ∧
    (RollingForecast.save e newPk db).2.amount_variance =
      e.forecasted_amount - e.budget_amount ∧
    (0 < e.budget_quantity →
      (RollingForecast.save e newPk db).2.quantity_variance_percentage =
        (e.forecasted_quantity - e.budget_quantity) / e.budget_quantity * 100) ∧
    (e.budget_quantity ≤ 0 →
      (RollingForecast.save e newPk db).2.quantity_variance_percentage = 0) ∧
    (0 < e.budget_amount →
      (RollingForecast.save e newPk db).2.amount_variance_percentage =
        (e.forecasted_amount - e.budget_amount) / e.budget_amount * 100) ∧
    (e.budget_amount ≤ 0 →
      (RollingForecast.save e newPk db).2.amount_variance_percentage = 0) := by
  obtain ⟨p, v, hev⟩ := RollingForecast.save_snd_shape e newPk db
  rw [hev]
  refine ⟨rfl, rfl, ?_, ?_, ?_, ?_⟩
  · intro h
    show (if e.budget_quantity > 0 then _ else _) = _
    rw [if_pos h]
  · intro h
    show (if e.budget_quantity > 0 then _ else _) = _
    rw [if_neg (not_lt.mpr h)]
  · intro h
    show (if e.budget_amount > 0 then _ else _) = _
    rw [if_pos h]
  · intro h
    show (if e.budget_amount > 0 then _ else _) = _
    rw [if_neg (not_lt.mpr h)]

/-- Witness for C3's amended theorem at the concrete fixture `exNegBase`
(negative quantity baseline, zero amount baseline). -/
theorem variance_fields_on_save_witness :
    ((RollingForecast.save exNegBase 1 []).2.quantity_variance =
      exNegBase.forecasted_quantity - exNegBase.budget_quantity) ∧
    exNegBase.budget_quantity ≤ 0 ∧
    (RollingForecast.save exNegBase 1 []).2.quantity_variance_percentage = 0 ∧
    exNegBase.budget_amount ≤ 0 ∧
    (RollingForecast.save exNegBase 1 []).2.amount_variance_percentage = 0 := by
  have h := variance_fields_on_save exNegBase 1 []
  have hq : exNegBase.budget_quantity ≤ 0 := by norm_num [exNegBase]
  have ha : exNegBase.budget_amount ≤ 0 := le_refl 0
  exact ⟨h.1, hq, h.2.2.2.1 hq, ha, h.2.2.2.2.2 ha⟩

/-! ## C8 — approval immutability -/

/-- C8: for both budget and forecast entries, an update or delete of an
approved entry by a non-admin fails with `PermissionDenied` (so the stored
row is left untouched), an admin always succeeds, and entries in any
non-approved status are mutable regardless of role. -/
theorem approved_entry_immutability (u : User) (e : SalesBudget) (d : BudgetUpdate)
    (db : List SalesBudget) (f : RollingForecast) (fd : ForecastUpdate)
    (fdb : List RollingForecast) :
    (e.status = Status.approved → ¬ u.is_admin →
      perform_update_budget u e d = Except.error ApiError.permissionDenied ∧
      perform_destroy_budget u e db = Except.error ApiError.permissionDenied) ∧
    (u.is_admin →
      perform_update_budget u e d = Except.ok (applyBudgetUpdate d e) ∧
      perform_destroy_budget u e db = Except.ok (db.filter fun x => x.id != e.id)) ∧
    (e.status ≠ Status.approved →
      perform_update_budget u e d = Except.ok (applyBudgetUpdate d e) ∧
      perform_destroy_budget u e db = Except.ok (db.filter fun x => x.id != e.id)) ∧
    (f.status = Status.approved → ¬ u.is_admin →
      perform_update_forecast u f fd = Except.error ApiError.permissionDenied ∧
      perform_destroy_forecast u f fdb = Except.error ApiError.permissionDenied) ∧
    (u.is_admin →
      perform_update_forecast u f fd = Except.ok (applyForecastUpdate fd f) ∧
      perform_destroy_forecast u f fdb = Except.ok (fdb.filter fun x => x.pk != f.pk)) ∧
    (f.status ≠ Status.approved →
      perform_update_forecast u f fd = Except.ok (applyForecastUpdate fd f) ∧
      perform_destroy_forecast u f fdb = Except.ok (fdb.filter fun x => x.pk != f.pk)) := by
  refine ⟨fun h1 h2 => ⟨?_, ?_⟩, fun h => ⟨?_, ?_⟩, fun h => ⟨?_, ?_⟩,
    fun h1 h2 => ⟨?_, ?_⟩, fun h => ⟨?_, ?_⟩, fun h => ⟨?_, ?_⟩⟩
  · rw [perform_update_budget, if_pos ⟨h1, h2⟩]
  · rw [perform_destroy_budget, if_pos ⟨h1, h2⟩]
  · rw [perform_update_budget, if_neg (fun hc => hc.2 h)]
  · rw [perform_destroy_budget, if_neg (fun hc => hc.2 h)]
  · rw [perform_update_budget, if_neg (fun hc => h hc.1)]
  · rw [perform_destroy_budget, if_neg (fun hc => h hc.1)]
  · rw [perform_update_forecast, if_pos ⟨h1, h2⟩]
  · rw [perform_destroy_forecast, if_pos ⟨h1, h2⟩]
  · rw [perform_update_forecast, if_neg (fun hc => hc.2 h)]
  · rw [perform_destroy_forecast, if_neg (fun hc => hc.2 h)]
  · rw [perform_update_forecast, if_neg (fun hc => h hc.1)]
  · rw [perform_destroy_forecast, if_neg (fun hc => h hc.1)]

/-- An approved budget row. -/
def exApprovedBudget : SalesBudget := { exStale with status := Status.approved }

/-- A salesperson (not an admin). -/
def exSalesperson : User := { id := 3, role := Role.salesperson, is_superuser := false }

/-- An admin. -/
def exAdmin : User := { id := 1, role := Role.admin, is_superuser := false }

/-- An empty update payload. -/
def exNoUpdate : BudgetUpdate :=
  { quantity := none, unit_price := none, discount_percentage := none,
    distribution_type := none, seasonal_multiplier := none, status := none }

/-- An empty forecast update payload. -/
def exNoForecastUpdate : ForecastUpdate :=
  { forecasted_quantity := none, forecasted_amount := none, budget_quantity := none,
    budget_amount := none, confidence_level := none, status := none }

/-- An approved forecast row. -/
def exApprovedForecast : RollingForecast := { exNegBase with status := Status.approved }

/-- Witness for C8: a salesperson cannot touch the approved rows, an admin
can. -/
theorem approved_entry_immutability_witness :
    (perform_update_budget exSalesperson exApprovedBudget exNoUpdate =
        Except.error ApiError.permissionDenied ∧
      perform_destroy_budget exSalesperson exApprovedBudget [exApprovedBudget] =
        Except.error ApiError.permissionDenied) ∧
    (perform_update_budget exAdmin exApprovedBudget exNoUpdate =
        Except.ok (applyBudgetUpdate exNoUpdate exApprovedBudget) ∧
      perform_destroy_budget exAdmin exApprovedBudget [exApprovedBudget] =
        Except.ok ([exApprovedBudget].filter fun x => x.id != exApprovedBudget.id)) ∧
    (perform_update_forecast exSalesperson exApprovedForecast exNoForecastUpdate =
        Except.error ApiError.permissionDenied ∧
      perform_destroy_forecast exSalesperson exApprovedForecast [exApprovedForecast] =
        Except.error ApiError.permissionDenied) :=
  ⟨(approved_entry_immutability exSalesperson exApprovedBudget exNoUpdate [exApprovedBudget]
      exApprovedForecast exNoForecastUpdate [exApprovedForecast]).1 rfl (by decide),
   (approved_entry_immutability exAdmin exApprovedBudget exNoUpdate [exApprovedBudget]
      exApprovedForecast exNoForecastUpdate [exApprovedForecast]).2.1 (by decide),
   (approved_entry_immutability exSalesperson exApprovedBudget exNoUpdate [exApprovedBudget]
      exApprovedForecast exNoForecastUpdate [exApprovedForecast]).2.2.2.1 rfl (by decide)⟩


/-! ## C9 — apply_seasonal_distribution -/

/-- `SalesBudget.save` rewrites only `total_amount`; every other field is
carried over unchanged. -/
theorem SalesBudget.save_shape (e : SalesBudget) :
    ∃ t, SalesBudget.save e = { e with total_amount := t } := by
  rw [SalesBudget.save]
  split
  · exact ⟨_, rfl⟩
  · exact ⟨_, rfl⟩

/-- The quantity field survives a save. -/
theorem SalesBudget.save_quantity (e : SalesBudget) :
    (SalesBudget.save e).quantity = e.quantity := by
  obtain ⟨t, ht⟩ := SalesBudget.save_shape e
  rw [ht]

/-- The distribution type survives a save. -/
theorem SalesBudget.save_distribution_type (e : SalesBudget) :
    (SalesBudget.save e).distribution_type = e.distribution_type := by
  obtain ⟨t, ht⟩ := SalesBudget.save_shape e
  rw [ht]

/-- The seasonal multiplier survives a save. -/
theorem SalesBudget.save_seasonal_multiplier (e : SalesBudget) :
    (SalesBudget.save e).seasonal_multiplier = e.seasonal_multiplier := by
  obtain ⟨t, ht⟩ := SalesBudget.save_shape e
  rw [ht]

/-- Overwriting `total_amount` before a save is irrelevant: save recomputes
it from the other fields. -/
theorem SalesBudget.save_total_set (e : SalesBudget) (t : ℚ) :
    SalesBudget.save { e with total_amount := t } = SalesBudget.save e := by
  by_cases hd : e.discount_percentage > 0
  · simp only [SalesBudget.save, hd, if_true, if_pos]
  · simp only [SalesBudget.save, hd, if_false, if_neg, not_false_iff]

/-- Saving twice computes the same row as saving once. -/
theorem SalesBudget.save_save (e : SalesBudget) :
    SalesBudget.save (SalesBudget.save e) = SalesBudget.save e := by
  obtain ⟨t, ht⟩ := SalesBudget.save_shape e
  conv_lhs => rw [ht]
  rw [SalesBudget.save_total_set]

/-- A seasonal budget row with a negative stored multiplier (the serializer
exposes `seasonal_multiplier` as writable with no lower bound). -/
def exSeasonalNeg : SalesBudget :=
  { exStale with
    distribution_type := DistributionType.seasonal
    quantity := 1
    seasonal_multiplier := -2 }

/-- Counterexample for C9 as stated: with the stored multiplier unchanged
(−2) between calls, a second `apply_seasonal_distribution` changes the
quantity again (1 ↦ −2 ↦ 4), so the operation is not idempotent as the claim
states it for every seasonal entry. -/
theorem apply_seasonal_counterexample :
    (SalesBudget.apply_seasonal_distribution exSeasonalNeg).quantity = -2 ∧
    (SalesBudget.apply_seasonal_distribution
      (SalesBudget.apply_seasonal_distribution exSeasonalNeg)).quantity = 4 := by
  constructor
  · norm_num [SalesBudget.apply_seasonal_distribution, SalesBudget.save, exSeasonalNeg, exStale]
  · norm_num [SalesBudget.apply_seasonal_distribution, SalesBudget.save, exSeasonalNeg, exStale]

/-- On a seasonal row with positive multiplier, applying the seasonal
distribution is exactly a plain save: dividing the quantity by the stored
multiplier and multiplying it straight back cancels. -/
theorem apply_seasonal_eq_save (x : SalesBudget) (hx : 0 < x.seasonal_multiplier)
    (hdt : x.distribution_type = DistributionType.seasonal) :
    SalesBudget.apply_seasonal_distribution x = SalesBudget.save x := by
  rw [SalesBudget.apply_seasonal_distribution, if_pos hdt]
  show SalesBudget.save
      { x with quantity :=
        (if x.seasonal_multiplier > 0 then x.quantity / x.seasonal_multiplier else x.quantity) *
          x.seasonal_multiplier } = SalesBudget.save x
  rw [if_pos hx, div_mul_cancel₀ _ (ne_of_gt hx)]

/-- C9 (amended): when the stored multiplier is strictly positive,
`apply_seasonal_distribution` divides the quantity by the stored multiplier
and immediately multiplies it back, so the quantity is left exactly
unchanged; consequently the operation is idempotent — and a repeat call
after the stored multiplier has been replaced by a different positive value
also leaves the quantity unchanged (no compounding occurs in exact
arithmetic).  Idempotence genuinely fails for non-positive stored
multipliers (see the counterexample), which the claim's blanket statement
includes. -/
theorem apply_seasonal_distribution_cancels (e : SalesBudget)
    (hm : 0 < e.seasonal_multiplier) :
    (SalesBudget.apply_seasonal_distribution e).quantity = e.quantity ∧
    SalesBudget.apply_seasonal_distribution (SalesBudget.apply_seasonal_distribution e) =
      SalesBudget.apply_seasonal_distribution e ∧
    (∀ m2 : ℚ, 0 < m2 →
      (SalesBudget.apply_seasonal_distribution
        { e with seasonal_multiplier := m2 }).quantity = e.quantity) := by
  refine ⟨?_, ?_, ?_⟩
  · by_cases hdt : e.distribution_type = DistributionType.seasonal
    · rw [apply_seasonal_eq_save e hm hdt, SalesBudget.save_quantity]
    · rw [SalesBudget.apply_seasonal_distribution, if_neg hdt]
  · by_cases hdt : e.distribution_type = DistributionType.seasonal
    · rw [apply_seasonal_eq_save e hm hdt,
        apply_seasonal_eq_save (SalesBudget.save e)
          (by rw [SalesBudget.save_seasonal_multiplier]; exact hm)
          (by rw [SalesBudget.save_distribution_type]; exact hdt),
        SalesBudget.save_save]
    · have h : SalesBudget.apply_seasonal_distribution e = e := by
        rw [SalesBudget.apply_seasonal_distribution, if_neg hdt]
      rw [h, h]
  · intro m2 hm2
    by_cases hdt : e.distribution_type = DistributionType.seasonal
    · rw [apply_seasonal_eq_save { e with seasonal_multiplier := m2 } hm2 hdt,
        SalesBudget.save_quantity]
    · rw [SalesBudget.apply_seasonal_distribution, if_neg hdt]

/-- A seasonal budget row with multiplier 2 and quantity 5. -/
def exSeasonalPos : SalesBudget :=
  { exStale with
    distribution_type := DistributionType.seasonal
    quantity := 5
    seasonal_multiplier := 2 }

/-- Witness for C9's amended theorem at the concrete fixture. -/
theorem apply_seasonal_distribution_cancels_witness :
    (SalesBudget.apply_seasonal_distribution exSeasonalPos).quantity = exSeasonalPos.quantity ∧
    SalesBudget.apply_seasonal_distribution
        (SalesBudget.apply_seasonal_distribution exSeasonalPos) =
      SalesBudget.apply_seasonal_distribution exSeasonalPos ∧
    (∀ m2 : ℚ, 0 < m2 →
      (SalesBudget.apply_seasonal_distribution
        { exSeasonalPos with seasonal_multiplier := m2 }).quantity = exSeasonalPos.quantity) :=
  apply_seasonal_distribution_cancels exSeasonalPos (by decide)

/-! ## C10 — updates never touch version bookkeeping -/

/-- Saving an instance that already has a primary key recomputes the
variances and rewrites that row in place: the version-control block is
skipped entirely. -/
theorem RollingForecast.save_persisted (e : RollingForecast) (newPk : Nat)
    (db : List RollingForecast) (k : Nat) (hpk : e.pk = some k) :
    RollingForecast.save e newPk db =
      (db.map fun x => if x.pk = some k then computeVariances e else x,
       computeVariances e) := by
  unfold RollingForecast.save
  have h : (computeVariances e).pk = some k := hpk
  simp only [h]

/-- C10: saving an already-persisted forecast row (`pk ≠ None`), including
through `update_from_budget`, never changes its `version` or its `is_latest`
flag, and recomputes only the derived variance fields — every other field,
and every other row of the table, is untouched. -/
theorem forecast_update_frame (e : RollingForecast) (k newPk : Nat)
    (db : List RollingForecast) (sb : SalesBudget) (hpk : e.pk = some k) :
    (RollingForecast.save e newPk db).2.version = e.version ∧
    (RollingForecast.save e newPk db).2.is_latest = e.is_latest ∧
    (RollingForecast.save e newPk db).2 = computeVariances e ∧
    (computeVariances e).pk = e.pk ∧
    (computeVariances e).customer = e.customer ∧
    (computeVariances e).item = e.item ∧
    (computeVariances e).year = e.year ∧
    (computeVariances e).month = e.month ∧
    (computeVariances e).forecasted_quantity = e.forecasted_quantity ∧
    (computeVariances e).forecasted_amount = e.forecasted_amount ∧
    (computeVariances e).budget_quantity = e.budget_quantity ∧
    (computeVariances e).budget_amount = e.budget_amount ∧
    (computeVariances e).confidence_level = e.confidence_level ∧
    (computeVariances e).status = e.status ∧
    (computeVariances e).salesperson = e.salesperson ∧
    (computeVariances e).created_by = e.created_by ∧
    (computeVariances e).approved_by = e.approved_by ∧
    (computeVariances e).approved_at = e.approved_at ∧
    (RollingForecast.save e newPk db).1 =
      (db.map fun x => if x.pk = some k then computeVariances e else x) ∧
    (RollingForecast.update_from_budget e sb newPk db).2.version = e.version ∧
    (RollingForecast.update_from_budget e sb newPk db).2.is_latest = e.is_latest := by
  rw [RollingForecast.save_persisted e newPk db k hpk]
  rw [RollingForecast.update_from_budget,
    RollingForecast.save_persisted _ newPk db k (by exact hpk)]
  exact ⟨rfl, rfl, rfl, rfl, rfl, rfl, rfl, rfl, rfl, rfl, rfl, rfl, rfl, rfl, rfl,
    rfl, rfl, rfl, rfl, rfl, rfl⟩

/-- A persisted forecast row (pk 4, version 2, not latest). -/
def exPersisted : RollingForecast :=
  { exNegBase with pk := some 4, version := 2, is_latest := false }

/-- Witness for C10 at a concrete persisted row. -/
theorem forecast_update_frame_witness :
    (RollingForecast.save exPersisted 9 [exPersisted]).2.version = exPersisted.version ∧
    (RollingForecast.save exPersisted 9 [exPersisted]).2.is_latest = exPersisted.is_latest ∧
    (RollingForecast.update_from_budget exPersisted exStale 9 [exPersisted]).2.version =
      exPersisted.version ∧
    (RollingForecast.update_from_budget exPersisted exStale 9 [exPersisted]).2.is_latest =
      exPersisted.is_latest := by
  have h := forecast_update_frame exPersisted 4 9 [exPersisted] exStale rfl
  exact ⟨h.1, h.2.1, h.2.2.2.2.2.2.2.2.2.2.2.2.2.2.2.2.2.2.2.1,
    h.2.2.2.2.2.2.2.2.2.2.2.2.2.2.2.2.2.2.2.2⟩

/-! ## C7 — bulk approve -/

/-- C7: for a nonempty id list sent by a user who may approve, exactly the
listed entries currently in `submitted` status transition to `approved`
(any other row — wrong status or not listed — is returned unchanged, never
errored), the approver identity and the approval timestamp are stamped in
the same update as the status change, and the returned count is the number
of rows actually transitioned. -/
theorem bulk_approve_spec (entry_ids : List Nat) (u : User) (now : Nat)
    (db : List SalesBudget) (hne : entry_ids ≠ []) (hperm : u.can_manage_users) :
    ∃ db2 n, approve_budget_entries_view entry_ids u now db = Except.ok (db2, n) ∧
      db2.length = db.length ∧
      n = db.countP (fun x => decide (x.id ∈ entry_ids ∧ x.status = Status.submitted)) ∧
      ∀ i (h : i < db.length) (h2 : i < db2.length),
        (db[i].id ∈ entry_ids ∧ db[i].status = Status.submitted →
          db2[i] = { db[i] with
            status := Status.approved
            approved_by := some u.id
            approved_at := some now }) ∧
        (¬ (db[i].id ∈ entry_ids ∧ db[i].status = Status.submitted) → db2[i] = db[i]) := by
  rw [approve_budget_entries_view, if_neg hne, if_neg (not_not_intro hperm)]
  refine ⟨_, _, rfl, List.length_map db _, (List.countP_eq_length_filter _ _).symm, ?_⟩
  intro i h h2
  constructor
  · intro hc
    rw [List.getElem_map, if_pos hc]
  · intro hc
    rw [List.getElem_map, if_neg hc]

/-- A draft budget row with id 2. -/
def exDraft : SalesBudget := { exStale with id := 2, status := Status.draft }

/-- An already-approved budget row with id 3. -/
def exPriorApproved : SalesBudget := { exStale with id := 3, status := Status.approved }

/-- Witness for C7: of the three listed rows in mixed statuses
{submitted, draft, approved}, only the submitted one transitions and the
count is 1. -/
theorem bulk_approve_spec_witness :
    ∃ db2 n,
      approve_budget_entries_view [1, 2, 3] exManager 5 [exStale, exDraft, exPriorApproved] =
        Except.ok (db2, n) ∧
      db2.length = 3 ∧
      n = [exStale, exDraft, exPriorApproved].countP
        (fun x => decide (x.id ∈ [1, 2, 3] ∧ x.status = Status.submitted)) ∧
      n = 1 := by
  obtain ⟨db2, n, h1, h2, h3, _⟩ :=
    bulk_approve_spec [1, 2, 3] exManager 5 [exStale, exDraft, exPriorApproved]
      (by decide) (by decide)
  refine ⟨db2, n, h1, h2, h3, ?_⟩
  rw [h3]
  decide

/-! ## C4 — seasonal bulk distribution -/

/-- The item field survives a save. -/
theorem SalesBudget.save_item (e : SalesBudget) :
    (SalesBudget.save e).item = e.item := by
  obtain ⟨t, ht⟩ := SalesBudget.save_shape e
  rw [ht]

/-- The month field survives a save. -/
theorem SalesBudget.save_month (e : SalesBudget) :
    (SalesBudget.save e).month = e.month := by
  obtain ⟨t, ht⟩ := SalesBudget.save_shape e
  rw [ht]

/-- The spec's `baseQuantity` for one item of a bulk request:
`(total_amount / |items|) / unitPrice`, guarded to 0 when the unit price is
not positive. -/
def bulkBaseQuantity (items : List Item) (total_amount : ℚ) (it : Item) : ℚ :=
  if it.unit_price > 0 then (total_amount / (items.length : ℚ)) / it.unit_price else 0

/-- Field values of an entry generated under seasonal distribution. -/
theorem mkBulkEntry_seasonal_fields (c : Customer) (it : Item) (year m : Nat)
    (api : ℚ) (uid : Nat) :
    (mkBulkEntry c it year m api DistributionType.seasonal uid).item = it.id ∧
    (mkBulkEntry c it year m api DistributionType.seasonal uid).month = m ∧
    (mkBulkEntry c it year m api DistributionType.seasonal uid).seasonal_multiplier =
      seasonal_multipliers m ∧
    (mkBulkEntry c it year m api DistributionType.seasonal uid).quantity =
      (if it.unit_price > 0 then api / it.unit_price else 0) * seasonal_multipliers m := by
  refine ⟨?_, ?_, ?_, ?_⟩
  · simp only [mkBulkEntry]
    rw [SalesBudget.save_item]
  · simp only [mkBulkEntry]
    rw [SalesBudget.save_month]
  · simp only [mkBulkEntry]
    rw [SalesBudget.save_seasonal_multiplier]
    simp
  · simp only [mkBulkEntry]
    rw [SalesBudget.save_quantity]
    simp

/-- C4: bulk-create with seasonal distribution generates, for each item and
each month 1..12, an entry with `quantity = baseQuantity × multiplier[m]`
where `baseQuantity = (total_amount/|items|)/unitPrice` (0 when the unit
price is 0), stamping the multiplier used into `seasonal_multiplier`; and
whenever the month-1 quantity is positive it strictly exceeds the month-12
quantity (multiplier 1.60 vs 0.60). -/
theorem seasonal_distribution_spec (c : Customer) (items : List Item) (year : Nat)
    (T : ℚ) (uid : Nat) (it : Item) (hit : it ∈ items) :
    (∀ m, 1 ≤ m → m ≤ 12 →
      ∃ e ∈ generatedEntries c items year T DistributionType.seasonal uid,
        e.item = it.id ∧ e.month = m ∧
        e.seasonal_multiplier = seasonal_multipliers m ∧
        e.quantity = bulkBaseQuantity items T it * seasonal_multipliers m) ∧
    (0 < bulkBaseQuantity items T it * seasonal_multipliers 1 →
      bulkBaseQuantity items T it * seasonal_multipliers 12 <
        bulkBaseQuantity items T it * seasonal_multipliers 1) := by
  constructor
  · intro m hm1 hm2
    obtain ⟨h1, h2, h3, h4⟩ := mkBulkEntry_seasonal_fields c it year m
      (T / (items.length : ℚ)) uid
    refine ⟨mkBulkEntry c it year m (T / (items.length : ℚ)) DistributionType.seasonal uid,
      ?_, h1, h2, h3, h4⟩
    simp only [generatedEntries]
    rw [List.mem_flatMap]
    refine ⟨m, ?_, List.mem_map_of_mem _ hit⟩
    simp only [monthsList, List.mem_map, List.mem_range]
    exact ⟨m - 1, by omega, by omega⟩
  · intro h
    have h1 : seasonal_multipliers 1 = 16/10 := rfl
    have h12 : seasonal_multipliers 12 = 6/10 := rfl
    rw [h1] at h
    rw [h1, h12]
    have hb : 0 < bulkBaseQuantity items T it := by linarith
    linarith

/-- An item priced at 100. -/
def exItem100 : Item := { id := 1, unit_price := 100 }

/-- The bulk-create customer fixture. -/
def exCust : Customer := { id := 1, salesperson := none }

/-- Witness for C4: the spec's example — 1 item priced 100, total 12000. -/
theorem seasonal_distribution_spec_witness :
    (∀ m, 1 ≤ m → m ≤ 12 →
      ∃ e ∈ generatedEntries exCust [exItem100] 2025 12000 DistributionType.seasonal 7,
        e.item = exItem100.id ∧ e.month = m ∧
        e.seasonal_multiplier = seasonal_multipliers m ∧
        e.quantity = bulkBaseQuantity [exItem100] 12000 exItem100 * seasonal_multipliers m) ∧
    (0 < bulkBaseQuantity [exItem100] 12000 exItem100 * seasonal_multipliers 1 →
      bulkBaseQuantity [exItem100] 12000 exItem100 * seasonal_multipliers 12 <
        bulkBaseQuantity [exItem100] 12000 exItem100 * seasonal_multipliers 1) :=
  seasonal_distribution_spec exCust [exItem100] 2025 12000 7 exItem100
    (List.mem_singleton.mpr rfl)

/-! ## C5 — bulk-create batch semantics -/

/-- The months iterated by the bulk-create loop, unfolded. -/
theorem monthsList_eq : monthsList = [1, 2, 3, 4, 5, 6, 7, 8, 9, 10, 11, 12] := rfl

/-- A successful row insertion appends exactly that row. -/
theorem dbInsertBudget_ok (db : List SalesBudget) (e : SalesBudget) (db2 : List SalesBudget)
    (h : dbInsertBudget db e = Except.ok db2) : db2 = db ++ [e] := by
  rw [dbInsertBudget] at h
  split at h
  · exact absurd h (by simp)
  · split at h
    · exact absurd h (by simp)
    · exact ((Except.ok.injEq _ _).mp h).symm

/-- If every insertion of the loop succeeds, the final table is the original
table followed by all the generated rows. -/
theorem insertEach_ok (l : List SalesBudget) : ∀ db db2 : List SalesBudget,
    insertEach db l = (db2, none) → db2 = db ++ l := by
  induction l with
  | nil =>
    intro db db2 h
    simp only [insertEach] at h
    cases h
    simp
  | cons e rest ih =>
    intro db db2 h
    simp only [insertEach] at h
    cases hins : dbInsertBudget db e with
    | ok db3 =>
      rw [hins] at h
      rw [ih db3 db2 h, dbInsertBudget_ok db e db3 hins, List.append_assoc,
        List.singleton_append]
    | error err =>
      rw [hins] at h
      exact absurd (congrArg Prod.snd h) (by simp)

/-- Whatever happens, the loop leaves the table extended by exactly the
prefix of generated rows that was inserted before the first failure. -/
theorem insertEach_prefix (l : List SalesBudget) : ∀ db : List SalesBudget,
    ∃ k, (insertEach db l).1 = db ++ l.take k := by
  induction l with
  | nil =>
    intro db
    exact ⟨0, by simp [insertEach]⟩
  | cons e rest ih =>
    intro db
    simp only [insertEach]
    cases hins : dbInsertBudget db e with
    | ok db3 =>
      obtain ⟨k, hk⟩ := ih db3
      refine ⟨k + 1, ?_⟩
      simp only
      rw [hk, dbInsertBudget_ok db e db3 hins, List.take_succ_cons, List.append_assoc,
        List.singleton_append]
    | error err =>
      exact ⟨0, by simp⟩

/-- The bulk-create loop generates one row per month per item. -/
theorem length_generatedEntries (c : Customer) (items : List Item) (year : Nat)
    (T : ℚ) (dt : DistributionType) (uid : Nat) :
    (generatedEntries c items year T dt uid).length = 12 * items.length := by
  simp only [generatedEntries, monthsList_eq]
  simp [List.flatMap_cons, List.length_append]
  ring

/-- C5 (amended): the bulk-create view is not all-or-nothing.  For a valid
request it persists the generated rows one at a time: if every insert
succeeds, exactly 12 × |items| entries are appended and that count is
reported; if some insert fails, the error is surfaced but the rows inserted
before the failure remain committed — in every case the final table is the
original table plus a (possibly proper) prefix of the generated rows, not a
rollback to the original table. -/
theorem bulk_create_batch_semantics (c : Customer) (items : List Item) (year : Nat)
    (T : ℚ) (dt : DistributionType) (uid : Nat) (db : List SalesBudget)
    (hne : items ≠ []) (hy1 : 2020 ≤ year) (hy2 : year ≤ 2030) (hT : 0 ≤ T) :
    ((insertEach db (generatedEntries c items year T dt uid)).2 = none →
      bulk_create_budget_view c items year T dt uid db =
        (db ++ generatedEntries c items year T dt uid, Except.ok (12 * items.length))) ∧
    (∀ err, (insertEach db (generatedEntries c items year T dt uid)).2 = some err →
      bulk_create_budget_view c items year T dt uid db =
        ((insertEach db (generatedEntries c items year T dt uid)).1, Except.error err)) ∧
    ∃ k, (bulk_create_budget_view c items year T dt uid db).1 =
      db ++ (generatedEntries c items year T dt uid).take k := by
  have hcond : ¬ (items = [] ∨ year < 2020 ∨ 2030 < year ∨ T < 0) := by
    rintro (h | h | h | h)
    · exact hne h
    · omega
    · omega
    · exact absurd h (not_lt.mpr hT)
  refine ⟨?_, ?_, ?_⟩
  · intro h
    have hp : insertEach db (generatedEntries c items year T dt uid) =
        ((insertEach db (generatedEntries c items year T dt uid)).1, none) := by
      rw [← h]
    rw [bulk_create_budget_view, if_neg hcond, hp,
      insertEach_ok _ _ _ hp, length_generatedEntries]
  · intro err h
    have hp : insertEach db (generatedEntries c items year T dt uid) =
        ((insertEach db (generatedEntries c items year T dt uid)).1, some err) := by
      rw [← h]
    rw [bulk_create_budget_view, if_neg hcond, hp]
  · have haux : (bulk_create_budget_view c items year T dt uid db).1 =
        (insertEach db (generatedEntries c items year T dt uid)).1 := by
      rw [bulk_create_budget_view, if_neg hcond]
      rcases hp : insertEach db (generatedEntries c items year T dt uid) with ⟨db2, res⟩
      cases res <;> rfl
    obtain ⟨k, hk⟩ := insertEach_prefix (generatedEntries c items year T dt uid) db
    exact ⟨k, by rw [haux, hk]⟩

/-- A pre-existing budget row occupying cell (customer 1, item 1, 2025,
month 2). -/
def exPre : SalesBudget := { exStale with month := 2 }

/-- A zero-priced item with id 1. -/
def exItem0 : Item := { id := 1, unit_price := 0 }

/-- Counterexample for C5 as stated: bulk-creating into a table that already
holds a row for month 2 of the same cell fails on the second generated row
(unique-constraint violation), yet the row generated for month 1 has already
been committed — the table grows from 1 row to 2 despite the reported
failure, so the batch is not all-or-nothing. -/
theorem bulk_create_counterexample :
    (bulk_create_budget_view exCust [exItem0] 2025 0 DistributionType.equal 7 [exPre]).2 =
      Except.error ApiError.uniqueViolation ∧
    (bulk_create_budget_view exCust [exItem0] 2025 0 DistributionType.equal 7 [exPre]).1.length
      = 2 := by
  constructor
  · norm_num [bulk_create_budget_view, generatedEntries, monthsList_eq, insertEach,
      dbInsertBudget, mkBulkEntry, SalesBudget.save, exPre, exStale, exCust, exItem0]
  · norm_num [bulk_create_budget_view, generatedEntries, monthsList_eq, insertEach,
      dbInsertBudget, mkBulkEntry, SalesBudget.save, exPre, exStale, exCust, exItem0]

/-- Witness for C5's amended theorem: a fresh table always ends up extended
by a prefix of the generated rows. -/
theorem bulk_create_batch_semantics_witness :
    ∃ k, (bulk_create_budget_view exCust [exItem0] 2025 0 DistributionType.equal 7 []).1 =
      [] ++ (generatedEntries exCust [exItem0] 2025 0 DistributionType.equal 7).take k :=
  (bulk_create_batch_semantics exCust [exItem0] 2025 0 DistributionType.equal 7 []
    (by decide) (by decide) (by decide) (le_refl 0)).2.2

/-! ## C1 — forecast versioning invariant -/

/-- One row as rewritten by the queryset `update(is_latest=False)`. -/
def flipLatest (x : RollingForecast) : RollingForecast := { x with is_latest := false }

/-- `computeVariances` leaves the cell coordinates and version bookkeeping
untouched. -/
theorem computeVariances_customer (e : RollingForecast) :
    (computeVariances e).customer = e.customer := rfl

/-- `computeVariances` leaves the item untouched. -/
theorem computeVariances_item (e : RollingForecast) :
    (computeVariances e).item = e.item := rfl

/-- `computeVariances` leaves the year untouched. -/
theorem computeVariances_year (e : RollingForecast) :
    (computeVariances e).year = e.year := rfl

/-- `computeVariances` leaves the month untouched. -/
theorem computeVariances_month (e : RollingForecast) :
    (computeVariances e).month = e.month := rfl

/-- `computeVariances` leaves the version untouched. -/
theorem computeVariances_version (e : RollingForecast) :
    (computeVariances e).version = e.version := rfl

/-- Flipping the latest flag does not move a row out of its cell. -/
theorem inCell_flipLatest (c i y m : Nat) (x : RollingForecast) :
    inCell c i y m (flipLatest x) = inCell c i y m x := rfl

/-- Inserting a fresh row for a cell rewrites that cell's row list to: all
previous rows with `is_latest` flipped off, followed by the inserted row. -/
theorem cellList_save_insert (db : List RollingForecast) (e : RollingForecast)
    (newPk : Nat) (hpk : e.pk = none) :
    cellList (RollingForecast.save e newPk db).1 e.customer e.item e.year e.month =
      (cellList db e.customer e.item e.year e.month).map flipLatest ++
        [(RollingForecast.save e newPk db).2] := by
  unfold RollingForecast.save
  have h : (computeVariances e).pk = none := hpk
  simp only [h, computeVariances_customer, computeVariances_item, computeVariances_year,
    computeVariances_month]
  by_cases hcnt : (cellList db e.customer e.item e.year e.month).length > 0
  · simp only [if_pos hcnt]
    rw [cellList, List.filter_append, List.filter_map]
    have hcong : List.filter
        ((inCell e.customer e.item e.year e.month) ∘
          (fun x => if inCell e.customer e.item e.year e.month x then
            { x with is_latest := false } else x)) db =
        List.filter (inCell e.customer e.item e.year e.month) db := by
      apply List.filter_congr
      intro x _
      simp only [Function.comp_apply]
      split
      · rename_i hx
        rw [show inCell e.customer e.item e.year e.month { x with is_latest := false } =
          inCell e.customer e.item e.year e.month x from rfl, hx]
      · rfl
    rw [hcong]
    congr 1
    · apply List.map_congr_left
      intro x hx
      rw [if_pos (List.mem_filter.mp hx).2]
      rfl
    · simp [List.filter, inCell, computeVariances_customer, computeVariances_item,
        computeVariances_year, computeVariances_month]
  · simp only [if_neg hcnt]
    have hnil : cellList db e.customer e.item e.year e.month = [] :=
      List.length_eq_zero.mp (by omega)
    rw [cellList, List.filter_append]
    rw [show List.filter (inCell e.customer e.item e.year e.month) db = [] from hnil]
    rw [hnil]
    simp [List.filter, inCell, computeVariances_customer, computeVariances_item,
      computeVariances_year, computeVariances_month]

/-- The row inserted for a cell that already holds N rows carries
version N + 1 (N = 0 included, through the model default) and the model
default `is_latest = True`. -/
theorem save_new_fields (db : List RollingForecast) (e : RollingForecast) (newPk : Nat)
    (hpk : e.pk = none) (hv : e.version = 1) (hl : e.is_latest = true) :
    (RollingForecast.save e newPk db).2.version =
      (cellList db e.customer e.item e.year e.month).length + 1 ∧
    (RollingForecast.save e newPk db).2.is_latest = true := by
  unfold RollingForecast.save
  have h : (computeVariances e).pk = none := hpk
  simp only [h, computeVariances_customer, computeVariances_item, computeVariances_year,
    computeVariances_month]
  by_cases hcnt : (cellList db e.customer e.item e.year e.month).length > 0
  · simp only [if_pos hcnt]
    exact ⟨trivial, hl⟩
  · simp only [if_neg hcnt]
    have h0 : (cellList db e.customer e.item e.year e.month).length = 0 := by omega
    constructor
    · show (computeVariances e).version = _
      rw [computeVariances_version, hv, h0]
    · exact hl

/-- The versioning invariant for the ordered row list of one cell: row i
(0-based) carries version i + 1, and exactly the last row has
`is_latest = true`. -/
def cellInv (l : List RollingForecast) : Prop :=
  ∀ i (h : i < l.length), l[i].version = i + 1 ∧
    (l[i].is_latest = true ↔ i + 1 = l.length)

instance (l : List RollingForecast) : Decidable (cellInv l) := by
  unfold cellInv; infer_instance

/-- The insert shape (flip all, append a latest row with the next version)
preserves the cell invariant. -/
theorem cellInv_step (l : List RollingForecast) (n : RollingForecast)
    (hinv : cellInv l) (hv : n.version = l.length + 1) (hl : n.is_latest = true) :
    cellInv (l.map flipLatest ++ [n]) := by
  intro i h
  have hlen : (List.map flipLatest l ++ [n]).length = l.length + 1 := by simp
  by_cases hi : i < l.length
  · have hmap : i < (List.map flipLatest l).length := by simpa using hi
    have hget : (List.map flipLatest l ++ [n])[i] = flipLatest l[i] := by
      rw [List.getElem_append_left hmap, List.getElem_map]
    rw [hget]
    refine ⟨(hinv i hi).1, ?_⟩
    rw [hlen]
    show false = true ↔ i + 1 = l.length + 1
    constructor
    · intro hh
      exact absurd hh (by simp)
    · intro hh
      omega
  · have hieq : i = l.length := by
      rw [hlen] at h
      omega
    have hmap : (List.map flipLatest l).length ≤ i := by simpa using hieq.ge
    have hget : (List.map flipLatest l ++ [n])[i] = n := by
      rw [List.getElem_append_right hmap]
      simp [hieq]
    rw [hget, hv, hlen, hieq]
    simp [hl]

/-- After the insert shape, the inserted row is the only one with
`is_latest = true`. -/
theorem latest_filter_step (l : List RollingForecast) (n : RollingForecast)
    (hl : n.is_latest = true) :
    (l.map flipLatest ++ [n]).filter (fun x => x.is_latest) = [n] := by
  rw [List.filter_append]
  have h1 : (l.map flipLatest).filter (fun x => x.is_latest) = [] := by
    rw [List.filter_map]
    have hfalse : ((fun x : RollingForecast => x.is_latest) ∘ flipLatest) =
        fun _ => false := by
      funext x
      rfl
    rw [hfalse]
    simp
  rw [h1]
  simp [List.filter, hl]

/-- After the insert shape, the inserted row carries the cell's highest
version. -/
theorem version_le_step (l : List RollingForecast) (n : RollingForecast)
    (hinv : cellInv l) (hv : n.version = l.length + 1) :
    ∀ z ∈ l.map flipLatest ++ [n], z.version ≤ n.version := by
  intro z hz
  rw [List.mem_append] at hz
  rcases hz with hz | hz
  · rw [List.mem_map] at hz
    obtain ⟨x, hx, rfl⟩ := hz
    obtain ⟨j, hj, hxe⟩ := List.mem_iff_getElem.mp hx
    show x.version ≤ n.version
    rw [← hxe, (hinv j hj).1, hv]
    omega
  · rw [List.mem_singleton] at hz
    rw [hz]

/-- C1: inserting a fresh forecast entry (no pk, model defaults version 1 and
is_latest True) for a cell currently holding N invariant-satisfying rows
appends it with version N + 1 and is_latest True while flipping all N prior
rows to is_latest False; the invariant is preserved, and in the new state the
inserted row is the unique is_latest row and carries the cell's highest
version. -/
theorem forecast_versioning_invariant (db : List RollingForecast) (e : RollingForecast)
    (newPk : Nat) (hfresh : e.fresh)
    (hinv : cellInv (cellList db e.customer e.item e.year e.month)) :
    cellList (RollingForecast.save e newPk db).1 e.customer e.item e.year e.month =
      (cellList db e.customer e.item e.year e.month).map flipLatest ++
        [(RollingForecast.save e newPk db).2] ∧
    (RollingForecast.save e newPk db).2.version =
      (cellList db e.customer e.item e.year e.month).length + 1 ∧
    (RollingForecast.save e newPk db).2.is_latest = true ∧
    cellInv (cellList (RollingForecast.save e newPk db).1 e.customer e.item e.year e.month) ∧
    (cellList (RollingForecast.save e newPk db).1 e.customer e.item e.year e.month).filter
        (fun x => x.is_latest) = [(RollingForecast.save e newPk db).2] ∧
    (∀ z ∈ cellList (RollingForecast.save e newPk db).1 e.customer e.item e.year e.month,
      z.version ≤ (RollingForecast.save e newPk db).2.version) := by
  obtain ⟨hpk, hv, hl⟩ := hfresh
  have hcell := cellList_save_insert db e newPk hpk
  obtain ⟨hver, hlatest⟩ := save_new_fields db e newPk hpk hv hl
  refine ⟨hcell, hver, hlatest, ?_, ?_, ?_⟩
  · rw [hcell]
    exact cellInv_step _ _ hinv hver hlatest
  · rw [hcell]
    exact latest_filter_step _ _ hlatest
  · rw [hcell]
    exact version_le_step _ _ hinv hver

/-- A fresh in-memory forecast entry for cell (1, 1, 2025, 3), as the create
path builds it (model defaults). -/
def exFresh : RollingForecast :=
  { pk := none, customer := 1, item := 1, year := 2025, month := 3,
    forecasted_quantity := 0, forecasted_amount := 0, budget_quantity := 0,
    budget_amount := 0, quantity_variance := 0, amount_variance := 0,
    quantity_variance_percentage := 0, amount_variance_percentage := 0,
    confidence_level := 80, is_latest := true, version := 1, status := Status.draft,
    salesperson := none, created_by := none, approved_by := none, approved_at := none }

/-- The table after the first insert. -/
def exDb1 : List RollingForecast := (RollingForecast.save exFresh 1 []).1

/-- The table after the second insert. -/
def exDb2 : List RollingForecast := (RollingForecast.save exFresh 2 exDb1).1

/-- The table after the third insert. -/
def exDb3 : List RollingForecast := (RollingForecast.save exFresh 3 exDb2).1

/-- Witness for C1: the third insertion into the same cell, after which the
cell's rows carry versions 1, 2, 3 with is_latest false, false, true. -/
theorem forecast_versioning_invariant_witness :
    (cellInv (cellList (RollingForecast.save exFresh 3 exDb2).1 exFresh.customer exFresh.item
        exFresh.year exFresh.month) ∧
      (RollingForecast.save exFresh 3 exDb2).2.version =
        (cellList exDb2 exFresh.customer exFresh.item exFresh.year exFresh.month).length + 1 ∧
      (RollingForecast.save exFresh 3 exDb2).2.is_latest = true) ∧
    (cellList exDb3 1 1 2025 3).map (fun x => (x.version, x.is_latest)) =
      [(1, false), (2, false), (3, true)] := by
  have h := forecast_versioning_invariant exDb2 exFresh 3 (by decide) (by decide)
  exact ⟨⟨h.2.2.2.1, h.2.1, h.2.2.1⟩, by decide⟩
